import Mathlib

/-!
Verification of the filtering/aggregation logic of the freight-leads
dashboard (`src/app.py`).

The dashboard loads a CSV into a pandas DataFrame `df`, derives a
`Rate Category` column with `categorize_rate`, and serves callbacks that
all funnel through `apply_filters`: KPI cards (`update_kpi_cards`),
charts (`update_charts`), the data table (`update_table_data`) and the
two CSV downloads (`download_csv`, `download_contacts`).

Embedding choices:
* A DataFrame is a `List Row`, in row order.  Categorical cells are
  `String`s, the numeric rate and distance columns are exact integers
  (`Int`), and the three date columns are day ordinals (`Int`); pandas
  `Timestamp` comparison is total order on such ordinals.
* The nine filter-callback inputs (six dropdown values, the two-element
  `rate_range` slider list and the two optional date-picker endpoints)
  are bundled in a `Selection` record, in the order the Python callbacks
  pass them.  A `None` date-picker endpoint is `Option.none`; Python's
  `if start_date and end_date` is truthiness of both endpoints.
* Python float arithmetic is modelled by exact rationals (`Rat`); the
  `f"..."` format specifiers `:,`, `:,.2f`, `:,.0f` and `:.1f` are
  modelled digit-for-digit (comma grouping, fixed decimals, round half
  to even) on those exact values.
* `pd.Series.mode()` returns the most frequent values in ascending
  sorted order, so `.mode().iloc[0]` is the least (in string order)
  value of maximal frequency; `modeMin` below implements exactly that.
-/

/-- One row of `data/leads.csv` after load: the columns `app.py` reads.
Dates are parsed to a date type at load (lines 20-22); here they are day
ordinals. -/
structure Row where
  customerId : String
  companyName : String
  contactPerson : String
  email : String
  phone : String
  industry : String        -- 'Industry Type'
  shipment : String        -- 'Shipment Requirement'
  commodity : String       -- 'Product / Commodity Type'
  priority : String        -- 'Priority Level'
  sourceCountry : String   -- 'Source Location / Country'
  destCountry : String     -- 'Destination Location / Country'
  rate : Int               -- 'Rate / Quote Requested ($)'
  distance : Int           -- 'Distance to be Covered (Km)'
  inquiryDate : Int        -- 'Date of Inquiry'
  shipDate : Int           -- 'Expected Ship Date'
  followUpDate : Int       -- 'Follow Up Date'
  status : String          -- 'Status'
deriving DecidableEq, Repr

/-- The nine filter inputs every callback passes to `apply_filters`,
in source order (`app.py` line 355).  `rateLo`/`rateHi` are
`rate_range[0]`/`rate_range[1]`. -/
structure Selection where
  industry : String
  shipment : String
  commodity : String
  priority : String
  sourceCountry : String
  destCountry : String
  rateLo : Int
  rateHi : Int
  startDate : Option Int
  endDate : Option Int
deriving DecidableEq, Repr

/-- `app.py` lines 18-26: `pd.read_csv` inside `try/except
FileNotFoundError`; a missing file yields the empty DataFrame. -/
def loadLeads (csv : Option (List Row)) : List Row :=
  match csv with
  | some rows => rows
  | none => []

/-- `categorize_rate` (`app.py` lines 41-47). -/
def categorize_rate (rate : Int) : String :=
  if rate ≥ 3000 then "High Value"
  else if rate ≥ 1500 then "Medium Value"
  else "Low Value"

/-- `app.py` lines 50-51: the derived `Rate Category` column, added when
the table is non-empty (`df['Rate / Quote Requested ($)'].apply(categorize_rate)`). -/
def rateCategoryColumn (df : List Row) : List String :=
  df.map (fun r => categorize_rate r.rate)

/-- The six categorical equality constraints of `apply_filters`
(lines 361-377), as one Bool: a dropdown set to the sentinel `'All'`
imposes no restriction, otherwise exact equality on its column. -/
def passesCat (sel : Selection) (r : Row) : Bool :=
  (sel.industry == "All" || r.industry == sel.industry) &&
  (sel.shipment == "All" || r.shipment == sel.shipment) &&
  (sel.commodity == "All" || r.commodity == sel.commodity) &&
  (sel.priority == "All" || r.priority == sel.priority) &&
  (sel.sourceCountry == "All" || r.sourceCountry == sel.sourceCountry) &&
  (sel.destCountry == "All" || r.destCountry == sel.destCountry)

/-- The rate-range constraint of `apply_filters` (lines 380-383),
always applied. -/
def passesRate (sel : Selection) (r : Row) : Bool :=
  decide (sel.rateLo ≤ r.rate) && decide (r.rate ≤ sel.rateHi)

/-- The date-range constraint of `apply_filters` (lines 386-390),
applied only when both endpoints are supplied
(`if start_date and end_date`). -/
def passesDate (sel : Selection) (r : Row) : Bool :=
  match sel.startDate, sel.endDate with
  | some s, some e => decide (s ≤ r.inquiryDate) && decide (r.inquiryDate ≤ e)
  | _, _ => true

/-- One conditional equality-filter statement of `apply_filters`
(each of lines 361-377): `if <dropdown> != 'All': filtered_df =
filtered_df[filtered_df[<column>] == <dropdown>]`. -/
def catStep (c : String) (p : Row → String) (l : List Row) : List Row :=
  if c ≠ "All" then l.filter (fun r => p r == c) else l

/-- The unconditional rate-range mask of `apply_filters`
(lines 380-383). -/
def rateStep (sel : Selection) (l : List Row) : List Row :=
  l.filter (fun r => decide (sel.rateLo ≤ r.rate) && decide (r.rate ≤ sel.rateHi))

/-- The conditional date-range mask of `apply_filters` (lines 386-390):
applied only when `start_date and end_date` are both supplied. -/
def dateStep (sel : Selection) (l : List Row) : List Row :=
  match sel.startDate, sel.endDate with
  | some s, some e => l.filter (fun r => decide (s ≤ r.inquiryDate) && decide (r.inquiryDate ≤ e))
  | _, _ => l

/-- `apply_filters` (`app.py` lines 355-392): early return of the global
table when it is empty, otherwise the sequence of the six conditional
equality filters (in source order: industry, shipment, commodity,
priority, source country, destination country), the rate-range filter
and the conditional date filter, each a pandas boolean-mask selection
(here `List.filter`, which keeps row order). -/
def apply_filters (df : List Row) (sel : Selection) : List Row :=
  if df.isEmpty then df
  else
    dateStep sel (rateStep sel
      (catStep sel.destCountry Row.destCountry
        (catStep sel.sourceCountry Row.sourceCountry
          (catStep sel.priority Row.priority
            (catStep sel.commodity Row.commodity
              (catStep sel.shipment Row.shipment
                (catStep sel.industry Row.industry df)))))))

/-- `apply_filters`, with the fate of the global `df` tracked alongside
the result: `filtered_df = df.copy()` takes a copy and every later
statement rebinds `filtered_df` to a fresh boolean-mask selection over
that copy, so the second component — the global table after the call —
is returned exactly as it was. -/
def apply_filters_tracked (df : List Row) (sel : Selection) : List Row × List Row :=
  if df.isEmpty then (df, df)
  else
    (dateStep sel (rateStep sel
      (catStep sel.destCountry Row.destCountry
        (catStep sel.sourceCountry Row.sourceCountry
          (catStep sel.priority Row.priority
            (catStep sel.commodity Row.commodity
              (catStep sel.shipment Row.shipment
                (catStep sel.industry Row.industry df))))))), df)

/-- Comma-separate a digit string, as Python's `,` format option does:
the input is the reversed digit list (least-significant first), `k`
counts digits already emitted. -/
def commasRev : List Char → Nat → List Char
  | [], _ => []
  | [c], _ => [c]
  | c :: cs, k =>
      if (k + 1) % 3 = 0 then c :: ',' :: commasRev cs (k + 1)
      else c :: commasRev cs (k + 1)

/-- Decimal representation of a natural number with thousands
separators (Python `f"{n:,}"` for a non-negative integer). -/
def commaGroup (n : Nat) : String :=
  String.mk ((commasRev (Nat.repr n).data.reverse 0).reverse)

/-- Python fixed-point float formatting `f"{x:.<prec>f}"` (with
thousands separators in the integer part when `comma` is set, i.e. the
`,.2f` / `,.0f` specifiers): scale by `10^prec`, round half to even,
print with exactly `prec` fractional digits.  The Python source formats
IEEE doubles; here the value is an exact rational, which agrees wherever
the double is exact (all values the verified claims evaluate). -/
def formatFixed (prec : Nat) (comma : Bool) (x : Rat) : String :=
  let pn : Nat := 10 ^ prec
  let n : Int := x.num * pn
  let d : Int := (x.den : Int)
  let q : Int := n.fdiv d
  let rem : Int := n - q * d
  let scaled : Int :=
    if 2 * rem < d then q
    else if d < 2 * rem then q + 1
    else if q % 2 = 0 then q else q + 1
  let a : Nat := scaled.natAbs
  let ip : Nat := a / pn
  let fp : Nat := a % pn
  let ipStr : String := if comma then commaGroup ip else Nat.repr ip
  let fpStr : String :=
    if prec = 0 then ""
    else "." ++ String.mk (List.replicate (prec - (Nat.repr fp).length) '0') ++ Nat.repr fp
  (if scaled < 0 then "-" else "") ++ ipStr ++ fpStr

/-- Strict lexicographic order on code-point sequences: Python's `<` on
`str`, the order `np.sort` applies to `Series.mode()`'s result. -/
def charListLt : List Char → List Char → Bool
  | [], [] => false
  | [], _ :: _ => true
  | _ :: _, [] => false
  | a :: as, b :: bs =>
      if a.toNat < b.toNat then true
      else if b.toNat < a.toNat then false
      else charListLt as bs

/-- Python's `<` on strings: lexicographic by code point. -/
def strLt (a b : String) : Bool :=
  charListLt a.data b.data

/-- The distinct values of a column in first-encountered order. -/
def firstOccurrences (l : List String) : List String :=
  l.foldl (fun acc x => if x ∈ acc then acc else acc ++ [x]) []

/-- The largest frequency of any value of the column. -/
def maxCount (l : List String) : Nat :=
  (l.map (fun v => l.count v)).foldr max 0

/-- The values of maximal frequency, in first-encountered order: the
(unsorted) content of `Series.mode()`. -/
def modeCandidates (l : List String) : List String :=
  (firstOccurrences l).filter (fun v => l.count v == maxCount l)

/-- `Series.mode().iloc[0]`: pandas returns the modes in ascending
sorted order, so element 0 is the least value (string order) among those
of maximal frequency. -/
def modeMin (l : List String) : String :=
  match modeCandidates l with
  | [] => ""
  | c :: cs => cs.foldl (fun a b => if strLt b a then b else a) c

/-- `update_kpi_cards` (`app.py` lines 412-433): the six formatted KPI
strings `(f"{total_customers:,}", f"${avg_rate:,.2f}",
f"{total_distance:,.0f}", f"{high_priority}", top_industry,
f"{conversion_rate:.1f}%")`, with the early return
`("0", "$0.00", "0", "0", "N/A", "0%")` on an empty global table and
each aggregate guarded by `if total_customers > 0`. -/
def update_kpi_cards (df : List Row) (sel : Selection) :
    String × String × String × String × String × String :=
  if df.isEmpty then ("0", "$0.00", "0", "0", "N/A", "0%")
  else
    let filtered := apply_filters df sel
    let total := filtered.length
    let avgRate : Rat := if total > 0 then ((filtered.map Row.rate).sum : Rat) / (total : Rat) else 0
    let totalDistance : Int := if total > 0 then (filtered.map Row.distance).sum else 0
    let highPriority : Nat :=
      if total > 0 then (filtered.filter (fun r => r.priority == "High" || r.priority == "Urgent")).length
      else 0
    let topIndustry : String := if total > 0 then modeMin (filtered.map Row.industry) else "N/A"
    let convRate : Rat :=
      if total > 0 then
        ((filtered.filter (fun r => r.status == "Closed Won" || r.status == "Negotiating")).length : Rat)
          / (total : Rat) * 100
      else 0
    (commaGroup total, "$" ++ formatFixed 2 true avgRate,
     formatFixed 0 true (totalDistance : Rat), Nat.repr highPriority,
     topIndustry, formatFixed 1 false convRate ++ "%")

/-- Insert into a count-descending list, keeping earlier entries first
on ties. -/
def insertDescByCount (p : String × Nat) : List (String × Nat) → List (String × Nat)
  | [] => [p]
  | q :: qs => if q.2 < p.2 then p :: q :: qs else q :: insertDescByCount p qs

/-- `Series.value_counts()`: value/frequency pairs sorted by descending
frequency. -/
def value_counts (l : List String) : List (String × Nat) :=
  ((firstOccurrences l).map (fun v => (v, l.count v))).foldr insertDescByCount []

/-- Insert into a key-ascending list. -/
def insertAscByKey (p : Int × Nat) : List (Int × Nat) → List (Int × Nat)
  | [] => [p]
  | q :: qs => if p.1 < q.1 then p :: q :: qs else q :: insertAscByKey p qs

/-- The distinct dates of a column in first-encountered order. -/
def firstOccurrencesInt (l : List Int) : List Int :=
  l.foldl (fun acc x => if x ∈ acc then acc else acc ++ [x]) []

/-- `filtered_df.groupby('Date of Inquiry').size()`: date/count pairs
with keys in ascending order. -/
def groupByDateSize (l : List Int) : List (Int × Nat) :=
  ((firstOccurrencesInt l).map (fun d => (d, l.count d))).foldr insertAscByKey []

/-- The data series `update_charts` hands to the seven plotly figures. -/
structure ChartData where
  sourceCounts : List (String × Nat)
  shipmentCounts : List (String × Nat)
  industryCounts : List (String × Nat)
  rateValues : List Int
  distanceRows : List (String × String × Int)
  commodityCounts : List (String × Nat)
  timeline : List (Int × Nat)
deriving DecidableEq, Repr

/-- `update_charts` (`app.py` lines 454-574): on an empty global table
it returns seven bare empty figures (modelled `none`); otherwise it
computes each figure's data series from the filtered subset. -/
def update_charts (df : List Row) (sel : Selection) : Option ChartData :=
  if df.isEmpty then none
  else
    let filtered := apply_filters df sel
    some
      { sourceCounts := value_counts (filtered.map Row.sourceCountry)
        shipmentCounts := value_counts (filtered.map Row.shipment)
        industryCounts := value_counts (filtered.map Row.industry)
        rateValues := filtered.map Row.rate
        distanceRows := filtered.map (fun r => (r.industry, r.priority, r.distance))
        commodityCounts := value_counts (filtered.map Row.commodity)
        timeline := groupByDateSize (filtered.map Row.inquiryDate) }

/-- The fifteen-column projection `update_table_data` sends to the
DataTable (`app.py` lines 596-602). -/
structure TableRecord where
  customerId : String
  companyName : String
  contactPerson : String
  email : String
  phone : String
  shipment : String
  commodity : String
  industry : String
  sourceCountry : String
  destCountry : String
  distance : Int
  rate : Int
  inquiryDate : Int
  priority : String
  status : String
deriving DecidableEq, Repr

def toTableRecord (r : Row) : TableRecord :=
  { customerId := r.customerId, companyName := r.companyName,
    contactPerson := r.contactPerson, email := r.email, phone := r.phone,
    shipment := r.shipment, commodity := r.commodity, industry := r.industry,
    sourceCountry := r.sourceCountry, destCountry := r.destCountry,
    distance := r.distance, rate := r.rate, inquiryDate := r.inquiryDate,
    priority := r.priority, status := r.status }

/-- `update_table_data` (`app.py` lines 589-604): `[]` on an empty
global table, else the filtered subset projected to the table's
columns, row per row (`to_dict('records')`). -/
def update_table_data (df : List Row) (sel : Selection) : List TableRecord :=
  if df.isEmpty then []
  else (apply_filters df sel).map toTableRecord

/-- `download_csv` (`app.py` lines 621-627): `None` when the global
table is empty or the button was never clicked, else the filtered
subset as the CSV payload. -/
def download_csv (df : List Row) (nClicks : Option Nat) (sel : Selection) :
    Option (List Row) :=
  if df.isEmpty || nClicks.isNone then none
  else some (apply_filters df sel)

/-- The seven-column contacts projection (`app.py` line 651). -/
structure ContactRecord where
  companyName : String
  contactPerson : String
  email : String
  phone : String
  industry : String
  sourceCountry : String
  priority : String
deriving DecidableEq, Repr

/-- `download_contacts` (`app.py` lines 644-652). -/
def download_contacts (df : List Row) (nClicks : Option Nat) (sel : Selection) :
    Option (List ContactRecord) :=
  if df.isEmpty || nClicks.isNone then none
  else some ((apply_filters df sel).map (fun r =>
    { companyName := r.companyName, contactPerson := r.contactPerson,
      email := r.email, phone := r.phone, industry := r.industry,
      sourceCountry := r.sourceCountry, priority := r.priority }))

/-- The full row predicate of `apply_filters`: the conjunction of every
active constraint. -/
def passesAll (sel : Selection) (r : Row) : Bool :=
  passesCat sel r && passesRate sel r && passesDate sel r

/-- The tie-break rule the specification asserts for the top-industry
KPI, stated in its words: among the values of maximal frequency, the one
whose first occurrence in the subset comes earliest.  To be compared
with `modeMin`, the behaviour of `mode().iloc[0]` in the code. -/
def modeFirstEncountered (l : List String) : String :=
  match modeCandidates l with
  | [] => ""
  | c :: _ => c

/-- A concrete lead used by the concrete-input theorems below. -/
def sampleRow : Row :=
  { customerId := "CUST-001", companyName := "Acme Freight", contactPerson := "Jo Doe",
    email := "jo@acme.com", phone := "555-0001", industry := "Retail",
    shipment := "FTL", commodity := "Steel", priority := "High",
    sourceCountry := "USA", destCountry := "Canada", rate := 2000,
    distance := 500, inquiryDate := 10, shipDate := 20, followUpDate := 30,
    status := "New" }

/-- The selection with every dropdown at the `'All'` sentinel, the rate
slider at `[0, 5000]` and no date restriction. -/
def selAll : Selection :=
  { industry := "All", shipment := "All", commodity := "All", priority := "All",
    sourceCountry := "All", destCountry := "All", rateLo := 0, rateHi := 5000,
    startDate := none, endDate := none }

def rowRetail : Row := { sampleRow with customerId := "CUST-002" }

def rowAgri : Row := { sampleRow with customerId := "CUST-003", industry := "Agriculture" }

/-- Two rows whose industries are tied at frequency one: `"Retail"` is
encountered first, `"Agriculture"` is lexicographically first. -/
def dfTie : List Row := [rowRetail, rowAgri]

/-- A one-row table together with a rate range that excludes its row. -/
def dfOne : List Row := [sampleRow]

def selExcluding : Selection := { selAll with rateLo := 2500, rateHi := 5000 }

/-- Rows carrying the spec's example rate column `[1000, 2000, 3000]`. -/
def rowsRateExample : List Row :=
  [{ sampleRow with rate := 1000 }, { sampleRow with rate := 2000 },
   { sampleRow with rate := 3000 }]

/-- A selection with only the start date supplied. -/
def selStartOnly : Selection := { selAll with startDate := some 5 }

theorem catStep_eq (l : List Row) (c : String) (p : Row → String) :
    catStep c p l = l.filter (fun r => c == "All" || p r == c) := by
  unfold catStep
  by_cases h : c = "All"
  · subst h
    simp
  · rw [if_pos h]
    refine List.filter_congr fun r _ => ?_
    have hc : (c == "All") = false := by simp [h]
    rw [hc, Bool.false_or]

theorem dateStep_eq (sel : Selection) (l : List Row) :
    dateStep sel l = l.filter (fun r => passesDate sel r) := by
  unfold dateStep passesDate
  rcases sel.startDate with _ | s <;> rcases sel.endDate with _ | e <;> simp

theorem apply_filters_eq_filter (df : List Row) (sel : Selection) :
    apply_filters df sel = df.filter (fun r => passesAll sel r) := by
  by_cases hdf : df.isEmpty
  · rw [List.isEmpty_iff] at hdf
    subst hdf
    simp [apply_filters]
  · unfold apply_filters rateStep
    rw [if_neg hdf]
    rw [catStep_eq, catStep_eq, catStep_eq, catStep_eq, catStep_eq, catStep_eq, dateStep_eq]
    simp only [List.filter_filter]
    refine List.filter_congr fun r _ => ?_
    simp only [passesAll, passesCat, passesRate]
    cases h1 : (sel.industry == "All" || r.industry == sel.industry) <;>
    cases h2 : (sel.shipment == "All" || r.shipment == sel.shipment) <;>
    cases h3 : (sel.commodity == "All" || r.commodity == sel.commodity) <;>
    cases h4 : (sel.priority == "All" || r.priority == sel.priority) <;>
    cases h5 : (sel.sourceCountry == "All" || r.sourceCountry == sel.sourceCountry) <;>
    cases h6 : (sel.destCountry == "All" || r.destCountry == sel.destCountry) <;>
    cases h7 : passesDate sel r <;>
      simp

theorem mem_apply_filters (df : List Row) (sel : Selection) (r : Row) :
    r ∈ apply_filters df sel ↔ r ∈ df ∧ passesAll sel r = true := by
  rw [apply_filters_eq_filter]
  exact List.mem_filter

theorem mem_foldl_firstOcc (l : List String) (acc : List String) (v : String) :
    (v ∈ l.foldl (fun acc x => if x ∈ acc then acc else acc ++ [x]) acc) ↔
      v ∈ acc ∨ v ∈ l := by
  induction l generalizing acc with
  | nil => simp
  | cons x xs ih =>
    simp only [List.foldl_cons]
    by_cases h : x ∈ acc
    · rw [if_pos h, ih]
      simp only [List.mem_cons]
      constructor
      · rintro (h1 | h2)
        · exact Or.inl h1
        · exact Or.inr (Or.inr h2)
      · rintro (h1 | h2 | h3)
        · exact Or.inl h1
        · exact Or.inl (h2 ▸ h)
        · exact Or.inr h3
    · rw [if_neg h, ih]
      simp only [List.mem_append, List.mem_singleton, List.mem_cons]
      tauto

theorem mem_firstOccurrences (l : List String) (v : String) :
    v ∈ firstOccurrences l ↔ v ∈ l := by
  unfold firstOccurrences
  rw [mem_foldl_firstOcc]
  simp

theorem le_foldr_max (l : List Nat) (a : Nat) (h : a ∈ l) :
    a ≤ l.foldr max 0 := by
  induction l with
  | nil => cases h
  | cons x xs ih =>
    rcases List.mem_cons.mp h with h1 | h1
    · subst h1
      exact le_max_left _ _
    · exact le_trans (ih h1) (le_max_right _ _)

theorem foldr_max_mem (l : List Nat) (h : l ≠ []) : l.foldr max 0 ∈ l := by
  induction l with
  | nil => exact absurd rfl h
  | cons x xs ih =>
    cases xs with
    | nil => simp
    | cons y ys =>
      rcases le_total x ((y :: ys).foldr max 0) with hle | hle
      · have hmax : (x :: y :: ys).foldr max 0 = (y :: ys).foldr max 0 := max_eq_right hle
        rw [hmax]
        exact List.mem_cons_of_mem _ (ih (by simp))
      · have hmax : (x :: y :: ys).foldr max 0 = x := max_eq_left hle
        rw [hmax]
        exact List.mem_cons_self _ _

theorem count_le_maxCount (l : List String) (v : String) (h : v ∈ l) :
    l.count v ≤ maxCount l :=
  le_foldr_max _ _ (List.mem_map.mpr ⟨v, h, rfl⟩)

theorem exists_count_eq_maxCount (l : List String) (h : l ≠ []) :
    ∃ v ∈ l, l.count v = maxCount l := by
  have hmem : maxCount l ∈ l.map (fun v => l.count v) :=
    foldr_max_mem _ (by simpa using h)
  rcases List.mem_map.mp hmem with ⟨v, hv, hc⟩
  exact ⟨v, hv, hc⟩

theorem mem_modeCandidates (l : List String) (v : String) :
    v ∈ modeCandidates l ↔ v ∈ l ∧ l.count v = maxCount l := by
  unfold modeCandidates
  rw [List.mem_filter, mem_firstOccurrences]
  simp

theorem modeCandidates_ne_nil (l : List String) (h : l ≠ []) :
    modeCandidates l ≠ [] := by
  rcases exists_count_eq_maxCount l h with ⟨v, hv, hc⟩
  have hm : v ∈ modeCandidates l := (mem_modeCandidates l v).mpr ⟨hv, hc⟩
  intro hnil
  rw [hnil] at hm
  cases hm

theorem charListLt_irrefl (a : List Char) : charListLt a a = false := by
  induction a with
  | nil => rfl
  | cons x xs ih =>
    simp only [charListLt, lt_irrefl, if_false]
    exact ih

theorem charListLt_trans (a : List Char) :
    ∀ b c, charListLt a b = true → charListLt b c = true → charListLt a c = true := by
  induction a with
  | nil =>
    intro b c hab hbc
    cases c with
    | nil =>
      cases b with
      | nil => exact hab
      | cons y ys => simp [charListLt] at hbc
    | cons z zs => rfl
  | cons x xs ih =>
    intro b c hab hbc
    cases b with
    | nil => simp [charListLt] at hab
    | cons y ys =>
      cases c with
      | nil => simp [charListLt] at hbc
      | cons z zs =>
        simp only [charListLt] at hab hbc ⊢
        by_cases h1 : x.toNat < y.toNat <;>
        by_cases h2 : y.toNat < x.toNat <;>
        by_cases h3 : y.toNat < z.toNat <;>
        by_cases h4 : z.toNat < y.toNat <;>
        by_cases h5 : x.toNat < z.toNat <;>
        by_cases h6 : z.toNat < x.toNat <;>
          simp [h1, h2, h3, h4, h5, h6] at hab hbc ⊢ <;>
          first
          | omega
          | exact ih ys zs hab hbc

theorem charListLt_lt_of_lt_of_not_lt (a : List Char) :
    ∀ b c, charListLt a b = true → charListLt c b = false → charListLt a c = true := by
  induction a with
  | nil =>
    intro b c hab hcb
    cases c with
    | nil =>
      cases b with
      | nil => exact hab
      | cons y ys => simp [charListLt] at hcb
    | cons z zs => rfl
  | cons x xs ih =>
    intro b c hab hcb
    cases b with
    | nil => simp [charListLt] at hab
    | cons y ys =>
      cases c with
      | nil => simp [charListLt] at hcb
      | cons z zs =>
        simp only [charListLt] at hab hcb ⊢
        by_cases h1 : x.toNat < y.toNat <;>
        by_cases h2 : y.toNat < x.toNat <;>
        by_cases h3 : z.toNat < y.toNat <;>
        by_cases h4 : y.toNat < z.toNat <;>
        by_cases h5 : x.toNat < z.toNat <;>
        by_cases h6 : z.toNat < x.toNat <;>
          simp [h1, h2, h3, h4, h5, h6] at hab hcb ⊢ <;>
          first
          | omega
          | exact ih ys zs hab hcb

theorem strLt_irrefl (s : String) : strLt s s = false :=
  charListLt_irrefl s.data

theorem strLt_lt_of_lt_of_not_lt (a b c : String) (hab : strLt a b = true)
    (hcb : strLt c b = false) : strLt a c = true :=
  charListLt_lt_of_lt_of_not_lt a.data b.data c.data hab hcb

theorem foldl_strMin_mem (cs : List String) :
    ∀ c, cs.foldl (fun a b => if strLt b a then b else a) c ∈ c :: cs := by
  induction cs with
  | nil => intro c; exact List.mem_singleton.mpr rfl
  | cons b bs ih =>
    intro c
    simp only [List.foldl_cons]
    rcases List.mem_cons.mp (ih (if strLt b c then b else c)) with h | h
    · rw [h]
      by_cases hb : strLt b c = true
      · rw [if_pos hb]
        exact List.mem_cons_of_mem _ (List.mem_cons_self _ _)
      · rw [if_neg hb]
        exact List.mem_cons_self _ _
    · exact List.mem_cons_of_mem _ (List.mem_cons_of_mem _ h)

theorem foldl_strMin_le (cs : List String) :
    ∀ c, ∀ x ∈ c :: cs,
      strLt x (cs.foldl (fun a b => if strLt b a then b else a) c) = false := by
  induction cs with
  | nil =>
    intro c x hx
    rw [List.mem_singleton.mp hx]
    exact strLt_irrefl c
  | cons b bs ih =>
    intro c x hx
    simp only [List.foldl_cons]
    by_cases hb : strLt b c = true
    · rw [if_pos hb]
      rcases List.mem_cons.mp hx with h1 | h1
      · subst h1
        have hbres : strLt b (bs.foldl (fun a b => if strLt b a then b else a) b) = false :=
          ih b b (List.mem_cons_self _ _)
        by_contra hxc
        rw [Bool.not_eq_false] at hxc
        have : strLt b (bs.foldl (fun a b => if strLt b a then b else a) b) = true :=
          charListLt_trans _ _ _ hb hxc
        rw [this] at hbres
        cases hbres
      · exact ih b x h1
    · rw [if_neg hb]
      rw [Bool.not_eq_true] at hb
      rcases List.mem_cons.mp hx with h1 | h1
      · rw [h1]
        exact ih c c (List.mem_cons_self _ _)
      · rcases List.mem_cons.mp h1 with h2 | h2
        · subst h2
          have hcres : strLt c (bs.foldl (fun a b => if strLt b a then b else a) c) = false :=
            ih c c (List.mem_cons_self _ _)
          by_contra hxc
          rw [Bool.not_eq_false] at hxc
          have : strLt x c = true := strLt_lt_of_lt_of_not_lt _ _ _ hxc hcres
          rw [this] at hb
          cases hb
        · exact ih c x (List.mem_cons_of_mem _ h2)

theorem modeMin_spec (l : List String) (h : l ≠ []) :
    modeMin l ∈ l ∧ l.count (modeMin l) = maxCount l ∧
      (∀ v ∈ l, l.count v ≤ l.count (modeMin l)) ∧
      (∀ v ∈ l, l.count v = l.count (modeMin l) → strLt v (modeMin l) = false) := by
  have hne := modeCandidates_ne_nil l h
  rcases List.exists_cons_of_ne_nil hne with ⟨c, cs, hc⟩
  have hres : modeMin l = cs.foldl (fun a b => if strLt b a then b else a) c := by
    unfold modeMin
    rw [hc]
  have hmem : modeMin l ∈ modeCandidates l := by
    rw [hres, hc]
    exact foldl_strMin_mem cs c
  rcases (mem_modeCandidates l _).mp hmem with ⟨hml, hmc⟩
  refine ⟨hml, hmc, ?_, ?_⟩
  · intro v hv
    rw [hmc]
    exact count_le_maxCount l v hv
  · intro v hv hcnt
    have hvc : v ∈ modeCandidates l :=
      (mem_modeCandidates l v).mpr ⟨hv, by rw [hcnt, hmc]⟩
    rw [hc] at hvc
    rw [hres]
    exact foldl_strMin_le cs c v hvc

/-- C1: every row returned by apply_filters satisfies the rate range
lo ≤ rate ≤ hi, and every input row excluded from the result that
passes all the other active constraints (the categorical dropdowns and
the date range) violates the rate range. -/
theorem rate_range_filter_correct (df : List Row) (sel : Selection) :
    (∀ r ∈ apply_filters df sel, sel.rateLo ≤ r.rate ∧ r.rate ≤ sel.rateHi) ∧
    (∀ r ∈ df, r ∉ apply_filters df sel → passesCat sel r = true →
      passesDate sel r = true → ¬(sel.rateLo ≤ r.rate ∧ r.rate ≤ sel.rateHi)) := by
  constructor
  · intro r hr
    have h := ((mem_apply_filters df sel r).mp hr).2
    simp only [passesAll, passesRate, Bool.and_eq_true, decide_eq_true_eq] at h
    exact h.1.2
  · intro r hrdf hnot hcat hdate hrate
    apply hnot
    apply (mem_apply_filters df sel r).mpr
    refine ⟨hrdf, ?_⟩
    simp only [passesAll, passesRate, Bool.and_eq_true, decide_eq_true_eq]
    exact ⟨⟨hcat, hrate.1, hrate.2⟩, hdate⟩

/-- Witness for C1: the sample row is kept when its rate 2000 is inside
the selected range [0, 5000], and the same row, excluded when the range
is [2500, 5000] while all other constraints pass, indeed violates that
range. -/
theorem rate_range_filter_correct_witness :
    ((0 : Int) ≤ 2000 ∧ (2000 : Int) ≤ 5000) ∧
    ¬((2500 : Int) ≤ 2000 ∧ (2000 : Int) ≤ 5000) :=
  ⟨(rate_range_filter_correct dfOne selAll).1 sampleRow (by decide),
   (rate_range_filter_correct dfOne selExcluding).2 sampleRow (by decide) (by decide)
     (by decide) (by decide)⟩

/-- C4: with every dropdown at the sentinel, a rate range covering every
rate of the table, and a date range absent or covering every inquiry
date, apply_filters returns the full table. -/
theorem all_sentinel_returns_full_table (df : List Row) (sel : Selection)
    (hind : sel.industry = "All") (hship : sel.shipment = "All")
    (hcom : sel.commodity = "All") (hpri : sel.priority = "All")
    (hsrc : sel.sourceCountry = "All") (hdst : sel.destCountry = "All")
    (hrate : ∀ r ∈ df, sel.rateLo ≤ r.rate ∧ r.rate ≤ sel.rateHi)
    (hdate : sel.startDate = none ∨ sel.endDate = none ∨
      (∀ r ∈ df, (∀ s, sel.startDate = some s → s ≤ r.inquiryDate) ∧
                 (∀ e, sel.endDate = some e → r.inquiryDate ≤ e))) :
    apply_filters df sel = df := by
  rw [apply_filters_eq_filter]
  apply List.filter_eq_self.mpr
  intro r hr
  have hcat : passesCat sel r = true := by
    simp [passesCat, hind, hship, hcom, hpri, hsrc, hdst]
  have hra : passesRate sel r = true := by
    rcases hrate r hr with ⟨h1, h2⟩
    simp [passesRate, h1, h2]
  have hda : passesDate sel r = true := by
    rcases hdate with h | h | h
    · simp [passesDate, h]
    · rcases hs : sel.startDate with _ | s <;> simp [passesDate, h, hs]
    · rcases h r hr with ⟨hs', he'⟩
      rcases hs : sel.startDate with _ | s
      · simp [passesDate, hs]
      · rcases he : sel.endDate with _ | e
        · simp [passesDate, hs, he]
        · simp [passesDate, hs, he, hs' s hs, he' e he]
  simp [passesAll, hcat, hra, hda]

/-- Witness for C4: with all dropdowns at the sentinel, rate range
[0, 5000] ⊇ {2000} and no date range, the one-row table comes back
whole. -/
theorem all_sentinel_returns_full_table_witness :
    apply_filters dfOne selAll = dfOne :=
  all_sentinel_returns_full_table dfOne selAll rfl rfl rfl rfl rfl rfl
    (by decide) (Or.inl rfl)

/-- C5: filtering is idempotent — applying the same selection to the
already-filtered subset returns that subset unchanged. -/
theorem apply_filters_idempotent (df : List Row) (sel : Selection) :
    apply_filters (apply_filters df sel) sel = apply_filters df sel := by
  rw [apply_filters_eq_filter df sel, apply_filters_eq_filter]
  rw [List.filter_filter]
  refine List.filter_congr fun r _ => ?_
  exact Bool.and_self _

/-- C9: the filtered subset is an order-preserving subsequence of the
input table: no new rows, no new duplicates, original relative order. -/
theorem apply_filters_sublist (df : List Row) (sel : Selection) :
    (apply_filters df sel).Sublist df := by
  rw [apply_filters_eq_filter]
  exact List.filter_sublist df

/-- C10: when either date-picker endpoint is absent, apply_filters
imposes no date restriction — it returns the same subset as the
selection with no date constraint at all. -/
theorem date_filter_requires_both_endpoints (df : List Row) (sel : Selection)
    (h : sel.startDate = none ∨ sel.endDate = none) :
    apply_filters df sel =
      apply_filters df { sel with startDate := none, endDate := none } := by
  rcases sel with ⟨i, sh, co, pr, sc, dc, rl, rh, sd, ed⟩
  rw [apply_filters_eq_filter, apply_filters_eq_filter]
  refine List.filter_congr fun r _ => ?_
  simp only [passesAll, passesCat, passesRate, passesDate]
  rcases h with h | h
  · simp only at h
    subst h
    rcases ed with _ | e <;> rfl
  · simp only at h
    subst h
    rcases sd with _ | s <;> rfl

/-- Witness for C10: with a start date but no end date, the filter
result equals the result with no date constraint. -/
theorem date_filter_requires_both_endpoints_witness :
    apply_filters dfOne selStartOnly =
      apply_filters dfOne { selStartOnly with startDate := none, endDate := none } :=
  date_filter_requires_both_endpoints dfOne selStartOnly (Or.inr rfl)

/-- C8: apply_filters leaves the loaded table unchanged (the second,
tracked component is returned exactly as passed) and its result is the
derived filtered view. -/
theorem apply_filters_leaves_table_unchanged (df : List Row) (sel : Selection) :
    (apply_filters_tracked df sel).2 = df ∧
    (apply_filters_tracked df sel).1 = apply_filters df sel := by
  unfold apply_filters_tracked apply_filters
  by_cases h : df.isEmpty <;> simp [h]

/-- C6: a missing input CSV yields the empty table, and every consumer
degrades: apply_filters returns the empty subset, the KPI cards show
their defaults, the charts get no data, the table shows no records, and
both downloads produce nothing. -/
theorem missing_file_empty_table_degrades (sel : Selection) (nClicks : Option Nat) :
    loadLeads none = [] ∧
    apply_filters (loadLeads none) sel = [] ∧
    update_kpi_cards (loadLeads none) sel = ("0", "$0.00", "0", "0", "N/A", "0%") ∧
    update_charts (loadLeads none) sel = none ∧
    update_table_data (loadLeads none) sel = [] ∧
    download_csv (loadLeads none) nClicks sel = none ∧
    download_contacts (loadLeads none) nClicks sel = none :=
  ⟨rfl, rfl, rfl, rfl, rfl, rfl, rfl⟩

/-- C7: the derived tier uses the fixed thresholds — High Value from
3000 up, Medium Value from 1500 up to below 3000, Low Value below 1500 —
and the rate column [1000, 2000, 3000] yields
[Low Value, Medium Value, High Value]. -/
theorem categorize_rate_thresholds :
    (∀ r : Int, 3000 ≤ r → categorize_rate r = "High Value") ∧
    (∀ r : Int, 1500 ≤ r → r < 3000 → categorize_rate r = "Medium Value") ∧
    (∀ r : Int, r < 1500 → categorize_rate r = "Low Value") ∧
    rateCategoryColumn rowsRateExample = ["Low Value", "Medium Value", "High Value"] := by
  refine ⟨?_, ?_, ?_, by decide⟩
  · intro r h
    unfold categorize_rate
    rw [if_pos h]
  · intro r h1 h2
    unfold categorize_rate
    rw [if_neg (by omega), if_pos h1]
  · intro r h
    unfold categorize_rate
    rw [if_neg (by omega), if_neg (by omega)]

/-- Witness for C7 at the rates 3500, 2000 and 1000. -/
theorem categorize_rate_thresholds_witness :
    categorize_rate 3500 = "High Value" ∧
    categorize_rate 2000 = "Medium Value" ∧
    categorize_rate 1000 = "Low Value" :=
  ⟨categorize_rate_thresholds.1 3500 (by decide),
   categorize_rate_thresholds.2.1 2000 (by decide) (by decide),
   categorize_rate_thresholds.2.2.1 1000 (by decide)⟩

/-- C2 fails as stated: on the two-row table whose industries are tied
(frequency one each), first-encountered order picks "Retail" (row one)
but the top-industry KPI — pandas mode().iloc[0], i.e. sorted order —
returns "Agriculture". -/
theorem top_industry_tiebreak_counterexample :
    (update_kpi_cards dfTie selAll).2.2.2.2.1 = "Agriculture" ∧
    modeFirstEncountered ((apply_filters dfTie selAll).map Row.industry) = "Retail" ∧
    (update_kpi_cards dfTie selAll).2.2.2.2.1 ≠
      modeFirstEncountered ((apply_filters dfTie selAll).map Row.industry) := by
  decide

/-- C2 amended: for every non-empty filtered subset the top-industry
KPI returns the most frequent industry, with ties among equally
frequent values broken by ascending string order (the least value in
code-point order wins), i.e. the result of modeMin. -/
theorem top_industry_mode_sorted (df : List Row) (sel : Selection)
    (h : apply_filters df sel ≠ []) :
    (update_kpi_cards df sel).2.2.2.2.1 =
      modeMin ((apply_filters df sel).map Row.industry) ∧
    modeMin ((apply_filters df sel).map Row.industry) ∈
      (apply_filters df sel).map Row.industry ∧
    (∀ v ∈ (apply_filters df sel).map Row.industry,
      ((apply_filters df sel).map Row.industry).count v ≤
        ((apply_filters df sel).map Row.industry).count
          (modeMin ((apply_filters df sel).map Row.industry))) ∧
    (∀ v ∈ (apply_filters df sel).map Row.industry,
      ((apply_filters df sel).map Row.industry).count v =
        ((apply_filters df sel).map Row.industry).count
          (modeMin ((apply_filters df sel).map Row.industry)) →
      strLt v (modeMin ((apply_filters df sel).map Row.industry)) = false) := by
  have hdf : df.isEmpty = false := by
    rcases df with _ | ⟨r, rs⟩
    · exact absurd rfl h
    · rfl
  have hlen : 0 < (apply_filters df sel).length := List.length_pos.mpr h
  have hmap : (apply_filters df sel).map Row.industry ≠ [] := by
    intro hm
    exact h (List.map_eq_nil_iff.mp hm)
  have hspec := modeMin_spec _ hmap
  refine ⟨?_, hspec.1, hspec.2.2.1, hspec.2.2.2⟩
  simp [update_kpi_cards, hdf, hlen]

/-- Witness for C2 amended at the tied two-row table. -/
theorem top_industry_mode_sorted_witness :
    (update_kpi_cards dfTie selAll).2.2.2.2.1 =
      modeMin ((apply_filters dfTie selAll).map Row.industry) :=
  (top_industry_mode_sorted dfTie selAll (by decide)).1

/-- C3 fails as stated: on a non-empty table whose filtered subset is
empty, the conversion KPI is formatted f-string style as "0.0%", not the
claimed "0%" (the "0%" literal is produced only by the empty-table early
return). -/
theorem kpi_empty_subset_counterexample :
    dfOne.isEmpty = false ∧ apply_filters dfOne selExcluding = [] ∧
    (update_kpi_cards dfOne selExcluding).2.2.2.2.2 = "0.0%" ∧
    (update_kpi_cards dfOne selExcluding).2.2.2.2.2 ≠ "0%" := by
  decide

/-- C3 amended: whenever the filtered subset is empty every KPI returns
its default — count "0", mean "$0.00", sum "0", high-urgency "0", top
value "N/A" — and the conversion KPI returns "0%" on an empty table and
"0.0%" on a non-empty table, with no exception. -/
theorem kpi_empty_subset_defaults (df : List Row) (sel : Selection)
    (h : apply_filters df sel = []) :
    update_kpi_cards df sel =
      ("0", "$0.00", "0", "0", "N/A", if df.isEmpty then "0%" else "0.0%") := by
  by_cases hdf : df.isEmpty
  · unfold update_kpi_cards
    rw [if_pos hdf, if_pos hdf]
  · unfold update_kpi_cards
    rw [if_neg hdf, if_neg hdf]
    simp only [h, List.length_nil]
    rfl

/-- Witness for C3 amended at the one-row table with an excluding rate
range. -/
theorem kpi_empty_subset_defaults_witness :
    update_kpi_cards dfOne selExcluding =
      ("0", "$0.00", "0", "0", "N/A", if dfOne.isEmpty then "0%" else "0.0%") :=
  kpi_empty_subset_defaults dfOne selExcluding (by decide)
